import Mathlib

/-!
Shallow embedding of `src/idify.ts` from `idify-react-component`.

The source wraps a React component into a class component that keeps a
per-definition registry `ClassComponent.refs : Map<string, ref>` of mounted
instances keyed by a string identifier, decorates each captured handle in
place with `mount` / `unMount` / `forceRerender` / `getParentName`, and
exposes registry lookups through a `Proxy` whose `get` handler resolves
`<prefix><id>` property reads.

Modelling choices:
  - a handle (the non-null node passed to the ref callback) is identified by
    a `Nat` tag standing for its object identity; decoration in place is
    recorded by adding that tag to a `decorated` list, and the registry
    stores the tag itself (no copy);
  - the registry `Map<string, ref>` is an association list with the usual
    map semantics (`rget` / `rset` / `rdelete`); keys of a JS `Map` are
    unique, and on duplicate-free lists these operations agree with
    `Map.get` / `Map.set` / `Map.delete` (deletion removes every occurrence,
    which coincides with `Map.delete` there);
  - JS truthiness of the id string: the empty string and an absent prop are
    falsy, every other string truthy; a non-null object is always truthy;
  - `console.error` calls are counted (`Nat` component of results);
  - JS string primitives `startsWith`, `slice(n)` and `.length` are modelled
    on the character list of the string (`jsStartsWith`, `jsSliceFrom`,
    `jsLength`); for the code-unit strings involved these agree with JS.
-/

namespace Idify

/-- Contents of `ClassComponent.refs : Map<string, ComponentRefType>`. -/
abbrev Registry := List (String × Nat)

/-- Models `Map.prototype.get`: first binding of the key, if any. -/
def rget : Registry → String → Option Nat
  | [], _ => none
  | (k, v) :: rest, key => if k = key then some v else rget rest key

/-- Models `Map.prototype.set`: upsert, overwriting an existing binding. -/
def rset : Registry → String → Nat → Registry
  | [], key, v => [(key, v)]
  | (k, w) :: rest, key, v =>
      if k = key then (key, v) :: rest else (k, w) :: rset rest key v

/-- Models `Map.prototype.delete`: removes the binding of the key. -/
def rdelete : Registry → String → Registry
  | [], _ => []
  | (k, w) :: rest, key =>
      if k = key then rdelete rest key else (k, w) :: rdelete rest key

/-- Observable state of one wrapped-component definition together with one
rendered instance: the definition-wide registry (`ClassComponent.refs`), the
set of handle tags that have been decorated in place by `#registerRef`, and
the instance's React state `{ isMounted, update }` (initially
`{ isMounted: true, update: 0 }`). -/
structure SysState where
  registry : Registry
  decorated : List Nat
  isMounted : Bool
  update : Nat
deriving DecidableEq

/-- The data captured by the `mount` / `unMount` / `forceRerender` closures
that `#registerRef` creates: the non-null node and the instance's id prop at
registration time. -/
structure RefClosures where
  node : Nat
  id : String
deriving DecidableEq

/-- Models `ClassComponent.#registerRef` (the ref callback). `node = none`
models a `null` node; `id = none` models an absent id prop. The guard is
`if (!node || !id) return;`, where the empty string is falsy. On success the
handle is decorated in place, registered under the id, and the closures over
`(node, id)` come into existence. The `Nat` counts logged diagnostics: the
callback never logs. -/
def registerRef (s : SysState) (node : Option Nat) (id : Option String) :
    SysState × Option RefClosures × Nat :=
  match node, id with
  | some n, some i =>
      if i = "" then (s, none, 0)
      else
        ({ s with registry := rset s.registry i n, decorated := n :: s.decorated },
         some ⟨n, i⟩, 0)
  | _, _ => (s, none, 0)

/-- Models the `mount` closure: `if (node && id) refs.set(id, refObject);`
then `setState({ isMounted: true })`. The captured node is non-null, so the
guard reduces to the truthiness of the captured id. The value re-registered
is `refObject`, i.e. the very node decorated at attach. -/
def mount (c : RefClosures) (s : SysState) : SysState :=
  { s with
      registry := if c.id = "" then s.registry else rset s.registry c.id c.node,
      isMounted := true }

/-- Models the `unMount` closure: `if (node && id) refs.delete(id);` then
`setState({ isMounted: false })`. -/
def unMount (c : RefClosures) (s : SysState) : SysState :=
  { s with
      registry := if c.id = "" then s.registry else rdelete s.registry c.id,
      isMounted := false }

/-- Models the `forceRerender` closure:
`() => this.setState({ update: Math.random() })`; the draw of
`Math.random()` is supplied as the `fresh` token. -/
def forceRerender (s : SysState) (fresh : Nat) : SysState :=
  { s with update := fresh }

/-- Models `ClassComponent.componentWillUnmount`:
`const id = this.props[idPropName]; if (!id) return; if (id) refs.delete(id);`. -/
def componentWillUnmount (s : SysState) (propId : Option String) : SysState :=
  match propId with
  | none => s
  | some i => if i = "" then s else { s with registry := rdelete s.registry i }

/-- Result of `ClassComponent.render`: `null` when `!this.state.isMounted`,
otherwise the created element. -/
inductive RenderResult
  | element
  | nullRender
deriving DecidableEq

/-- Models `ClassComponent.render`:
`if (!this.state.isMounted) return null; return React.createElement(...)`. -/
def render (s : SysState) : RenderResult :=
  if s.isMounted then .element else .nullRender

/-- A call to `mount` or `unMount` on the decorated handle. -/
inductive MU
  | m
  | u

/-- One `mount` / `unMount` call through the closures `c`. -/
def applyMU (c : RefClosures) (s : SysState) : MU → SysState
  | .m => mount c s
  | .u => unMount c s

/-- A sequence of `mount` / `unMount` calls, applied left to right. -/
def applySeq (c : RefClosures) : SysState → List MU → SysState
  | s, [] => s
  | s, op :: rest => applySeq c (applyMU c s op) rest

/-- The `ids` option: absent, an array of identifier strings, or a key/value
object whose values are the identifiers. -/
inductive IdsOption
  | noIds
  | idsArray (l : List String)
  | idsObject (l : List (String × String))
deriving DecidableEq

/-- Definition-time configuration fixed by `CreateFromFC`: the `ids` universe
and the accessor prefix (default `"$"`; `pfx` names the `prefix` option). -/
structure Config where
  ids : IdsOption
  pfx : String
deriving DecidableEq

/-- The value produced by the proxy `get` handler for one property read. -/
inductive GetOutcome
  | selectorFn
  | staticMember
  | registryRef (r : Nat)
  | nullValue
  | undefinedValue
deriving DecidableEq

/-- Models `prop.startsWith(prefix)` on the characters of the strings. -/
def jsStartsWith (s pre : String) : Bool := List.isPrefixOf pre.data s.data

/-- Models `prop.slice(n)` for `n` within the string. -/
def jsSliceFrom (s : String) (n : Nat) : String := String.mk (s.data.drop n)

/-- Models `prefix.length`. -/
def jsLength (s : String) : Nat := s.data.length

/-- The closed identifier universe determined by the `ids` option: `none`
when the universe is open, otherwise the list of valid identifiers (the
array's members, or `Object.values` of the object). -/
def closedValues : IdsOption → Option (List String)
  | .noIds => none
  | .idsArray l => some l
  | .idsObject l => some (l.map Prod.snd)

/-- Models `proxyHandler.get` of `src/idify.ts`: the `setIdType` short
circuit, the empty-prefix registry-first branch with static fallback, the
non-matching-prefix static fallback, the closed-universe validation (which
logs one diagnostic and returns `undefined`), and finally
`refs.get(id) ?? null`. When `ids` is an array that contains the candidate,
the JS `typeof ids === 'object'` check also runs but cannot fail
(`Object.values` of the array contains the candidate), so the two accepting
paths are collapsed. The `Nat` counts `console.error` calls. -/
def proxyGet (cfg : Config) (reg : Registry) (prop : String) : GetOutcome × Nat :=
  if prop = "setIdType" then (.selectorFn, 0)
  else if cfg.pfx = "" then
    match rget reg prop with
    | none => (.staticMember, 0)
    | some r => (.registryRef r, 0)
  else if !(jsStartsWith prop cfg.pfx) then (.staticMember, 0)
  else
    match cfg.ids with
    | .idsArray l =>
        if !(l.contains (jsSliceFrom prop (jsLength cfg.pfx))) then (.undefinedValue, 1)
        else
          match rget reg (jsSliceFrom prop (jsLength cfg.pfx)) with
          | some r => (.registryRef r, 0)
          | none => (.nullValue, 0)
    | .idsObject l =>
        if !((l.map Prod.snd).contains (jsSliceFrom prop (jsLength cfg.pfx))) then
          (.undefinedValue, 1)
        else
          match rget reg (jsSliceFrom prop (jsLength cfg.pfx)) with
          | some r => (.registryRef r, 0)
          | none => (.nullValue, 0)
    | .noIds =>
        match rget reg (jsSliceFrom prop (jsLength cfg.pfx)) with
        | some r => (.registryRef r, 0)
        | none => (.nullValue, 0)

/-- One property read through the proxy, as a state transition: the `get`
handler body only calls `refs.get` (and possibly `console.error`), never
`refs.set` / `refs.delete` / `setState`, so the state comes back unchanged;
the `Nat` counts diagnostics written to the error channel. -/
def readProp (cfg : Config) (s : SysState) (prop : String) :
    GetOutcome × SysState × Nat :=
  ((proxyGet cfg s.registry prop).1, s, (proxyGet cfg s.registry prop).2)

/-- A wrapped-component definition as an object: what `CreateFromFC`
returns (the proxy), identified by its fixed configuration. -/
structure WrappedDef where
  cfg : Config
deriving DecidableEq

/-- Models invoking the closure the proxy returns for `setIdType`:
`() => ProxyComponent` yields the very proxy object the property was read
from, unchanged. -/
def setIdTypeInvoke (d : WrappedDef) : WrappedDef := d

theorem rget_rset_self (m : Registry) (k : String) (v : Nat) :
    rget (rset m k v) k = some v := by
  induction m with
  | nil => simp [rset, rget]
  | cons p rest ih =>
      obtain ⟨a, b⟩ := p
      by_cases h : a = k
      · simp [rset, rget, h]
      · simp [rset, rget, h, ih]

theorem rget_rdelete_self (m : Registry) (k : String) :
    rget (rdelete m k) k = none := by
  induction m with
  | nil => simp [rdelete, rget]
  | cons p rest ih =>
      obtain ⟨a, b⟩ := p
      by_cases h : a = k
      · simp [rdelete, h, ih]
      · simp [rdelete, rget, h, ih]

theorem rdelete_idem (m : Registry) (k : String) :
    rdelete (rdelete m k) k = rdelete m k := by
  induction m with
  | nil => simp [rdelete]
  | cons p rest ih =>
      obtain ⟨a, b⟩ := p
      by_cases h : a = k
      · simp [rdelete, h, ih]
      · simp [rdelete, h, ih]

theorem applySeq_append (c : RefClosures) (ops : List MU) (op : MU) :
    ∀ s, applySeq c s (ops ++ [op]) = applyMU c (applySeq c s ops) op := by
  induction ops with
  | nil => intro s; simp [applySeq]
  | cons o rest ih => intro s; simp only [List.cons_append, applySeq]; exact ih _

/-- C1: with a non-empty prefix and a closed identifier universe (an array of
strings, or a key/value object whose values are the identifiers), reading the
property `<prefix><id>` where `id` is outside the universe logs exactly one
diagnostic to the error channel and returns `undefined` (an absent result);
reading `<prefix><id>` where `id` is in the universe but nothing is registered
under it returns `null` (an absent result) with no diagnostic logged. -/
theorem closed_universe_validation
    (u : IdsOption) (vals : List String) (pfx id prop : String) (reg : Registry)
    (hu : closedValues u = some vals)
    (hsel : prop ≠ "setIdType") (hp : pfx ≠ "")
    (hs : jsStartsWith prop pfx = true)
    (hd : jsSliceFrom prop (jsLength pfx) = id) :
    (vals.contains id = false →
        proxyGet ⟨u, pfx⟩ reg prop = (GetOutcome.undefinedValue, 1)) ∧
    (vals.contains id = true → rget reg id = none →
        proxyGet ⟨u, pfx⟩ reg prop = (GetOutcome.nullValue, 0)) := by
  cases u with
  | noIds => simp [closedValues] at hu
  | idsArray l =>
      obtain rfl : vals = l := by simpa [closedValues] using hu.symm
      constructor
      · intro hc
        simp only [proxyGet, hd, hs, hc]
        simp [hsel, hp]
      · intro hc hr
        simp only [proxyGet, hd, hs, hc, hr]
        simp [hsel, hp]
  | idsObject l =>
      obtain rfl : vals = l.map Prod.snd := by simpa [closedValues] using hu.symm
      constructor
      · intro hc
        simp only [proxyGet, hd, hs, hc]
        simp [hsel, hp]
      · intro hc hr
        simp only [proxyGet, hd, hs, hc, hr]
        simp [hsel, hp]

theorem closed_universe_validation_witness :
    proxyGet ⟨IdsOption.idsArray ["a", "b"], "$"⟩ [] "$c"
        = (GetOutcome.undefinedValue, 1) ∧
    proxyGet ⟨IdsOption.idsArray ["a", "b"], "$"⟩ [] "$a"
        = (GetOutcome.nullValue, 0) :=
  ⟨(closed_universe_validation (IdsOption.idsArray ["a", "b"]) ["a", "b"] "$" "c" "$c" []
      (by decide) (by decide) (by decide) (by decide) (by decide)).1 (by decide),
   (closed_universe_validation (IdsOption.idsArray ["a", "b"]) ["a", "b"] "$" "a" "$a" []
      (by decide) (by decide) (by decide) (by decide) (by decide)).2 (by decide) (by decide)⟩

/-- C2 counterexample: with the empty prefix and an entry registered under the
identifier `"setIdType"`, reading the property `"setIdType"` does not return
the registry entry — the reserved selector short-circuits first — so a read of
that property does not consult the Registry first, contrary to the claim's
"any property P". -/
theorem empty_pfx_selector_shadow :
    rget [("setIdType", 7)] "setIdType" = some 7 ∧
    proxyGet ⟨IdsOption.noIds, ""⟩ [("setIdType", 7)] "setIdType"
        = (GetOutcome.selectorFn, 0) ∧
    proxyGet ⟨IdsOption.noIds, ""⟩ [("setIdType", 7)] "setIdType"
        ≠ (GetOutcome.registryRef 7, 0) := by
  decide

/-- C2 (amended): with the empty prefix, a read of any property `P` other than
the reserved selector `setIdType` first consults the Registry with `P` as the
candidate identifier: a registered entry is returned (even when `P` collides
with a declared static member such as `refs`), and only when no entry is
registered does the read fall through to the definition's own static member
named `P`. -/
theorem empty_pfx_registry_priority
    (u : IdsOption) (reg : Registry) (prop : String) (hsel : prop ≠ "setIdType") :
    (∀ r, rget reg prop = some r →
        proxyGet ⟨u, ""⟩ reg prop = (GetOutcome.registryRef r, 0)) ∧
    (rget reg prop = none →
        proxyGet ⟨u, ""⟩ reg prop = (GetOutcome.staticMember, 0)) := by
  constructor
  · intro r hr
    simp [proxyGet, hsel, hr]
  · intro hr
    simp [proxyGet, hsel, hr]

theorem empty_pfx_registry_priority_witness :
    proxyGet ⟨IdsOption.noIds, ""⟩ [("refs", 5)] "refs"
        = (GetOutcome.registryRef 5, 0) :=
  (empty_pfx_registry_priority IdsOption.noIds [("refs", 5)] "refs" (by decide)).1
    5 (by decide)

/-- C3: reading the reserved selector `setIdType` wins over every other
resolution step for every configuration (any prefix, any universe, any
registry), logs nothing and leaves the whole state unchanged, so it perturbs
no other property read; invoking the returned closure yields the very same
wrapped definition. -/
theorem setIdType_noop (cfg : Config) (s : SysState) (d : WrappedDef) :
    readProp cfg s "setIdType" = (GetOutcome.selectorFn, s, 0) ∧
    (∀ p, readProp cfg (readProp cfg s "setIdType").2.1 p = readProp cfg s p) ∧
    setIdTypeInvoke d = d := by
  refine ⟨?_, fun p => rfl, rfl⟩
  simp [readProp, proxyGet]

/-- C4: if the ref callback fires with a null handle, or with the id prop
absent or empty, no registration occurs: the state (registry, decorated
handles, instance flags) is unchanged, no closures are created, and nothing
is logged. -/
theorem silent_optout_no_registration (s : SysState) (n : Nat) (i : String) :
    registerRef s none (some i) = (s, none, 0) ∧
    registerRef s (some n) none = (s, none, 0) ∧
    registerRef s (some n) (some "") = (s, none, 0) ∧
    registerRef s none none = (s, none, 0) := by
  refine ⟨rfl, rfl, ?_, rfl⟩
  simp [registerRef]

/-- C5: for a registered instance (so the captured id is non-empty), one
`unMount()` call removes the Registry entry for the id and sets the mounted
flag to false, so the component renders nothing; a second `unMount()` call
immediately afterward is a no-op, leaving the state identical to the state
after the first call. -/
theorem unMount_idempotent (c : RefClosures) (s : SysState) (h : c.id ≠ "") :
    rget (unMount c s).registry c.id = none ∧
    (unMount c s).isMounted = false ∧
    render (unMount c s) = RenderResult.nullRender ∧
    unMount c (unMount c s) = unMount c s := by
  refine ⟨?_, rfl, rfl, ?_⟩
  · simp [unMount, h, rget_rdelete_self]
  · simp [unMount, h, rdelete_idem]

theorem unMount_idempotent_witness :
    rget (unMount ⟨3, "x"⟩ ⟨[("x", 3)], [3], true, 0⟩).registry "x" = none ∧
    (unMount ⟨3, "x"⟩ ⟨[("x", 3)], [3], true, 0⟩).isMounted = false ∧
    render (unMount ⟨3, "x"⟩ ⟨[("x", 3)], [3], true, 0⟩) = RenderResult.nullRender ∧
    unMount ⟨3, "x"⟩ (unMount ⟨3, "x"⟩ ⟨[("x", 3)], [3], true, 0⟩)
      = unMount ⟨3, "x"⟩ ⟨[("x", 3)], [3], true, 0⟩ :=
  unMount_idempotent ⟨3, "x"⟩ ⟨[("x", 3)], [3], true, 0⟩ (by decide)

/-- C6: a successful attach with node `n` and non-empty id `i` creates the
closures over that very node, registers `n` itself under `i` (the handle is
decorated in place, recorded in `decorated` — no copy), and for every
sequence of `mount` / `unMount` calls through those closures: after a final
`mount` the Registry entry for `i` is the same node `n` registered at attach,
and after a final `unMount` the lookup of `i` is absent. -/
theorem mount_remount_identity_stable
    (s0 s : SysState) (n : Nat) (i : String) (hi : i ≠ "") (ops : List MU) :
    (registerRef s0 (some n) (some i)).2.1 = some ⟨n, i⟩ ∧
    rget (registerRef s0 (some n) (some i)).1.registry i = some n ∧
    n ∈ (registerRef s0 (some n) (some i)).1.decorated ∧
    rget (applySeq ⟨n, i⟩ s (ops ++ [MU.m])).registry i = some n ∧
    rget (applySeq ⟨n, i⟩ s (ops ++ [MU.u])).registry i = none := by
  refine ⟨?_, ?_, ?_, ?_, ?_⟩
  · simp [registerRef, hi]
  · simp [registerRef, hi, rget_rset_self]
  · simp [registerRef, hi]
  · rw [applySeq_append]
    simp [applyMU, mount, hi, rget_rset_self]
  · rw [applySeq_append]
    simp [applyMU, unMount, hi, rget_rdelete_self]

theorem mount_remount_identity_stable_witness :
    (registerRef ⟨[], [], true, 0⟩ (some 2) (some "x")).2.1 = some ⟨2, "x"⟩ ∧
    rget (registerRef ⟨[], [], true, 0⟩ (some 2) (some "x")).1.registry "x" = some 2 ∧
    2 ∈ (registerRef ⟨[], [], true, 0⟩ (some 2) (some "x")).1.decorated ∧
    rget (applySeq ⟨2, "x"⟩ ⟨[], [], true, 0⟩ ([MU.u] ++ [MU.m])).registry "x" = some 2 ∧
    rget (applySeq ⟨2, "x"⟩ ⟨[], [], true, 0⟩ ([MU.u] ++ [MU.u])).registry "x" = none :=
  mount_remount_identity_stable ⟨[], [], true, 0⟩ ⟨[], [], true, 0⟩ 2 "x"
    (by decide) [MU.u]

/-- C7: `forceRerender()` changes only the volatile `update` token, which is
set to the fresh random draw of the call: the mounted flag, the whole
Registry (hence its key set and every entry), and the decorated-handle record
are unchanged. -/
theorem forceRerender_only_update_token (s : SysState) (fresh : Nat) :
    (forceRerender s fresh).isMounted = s.isMounted ∧
    (forceRerender s fresh).registry = s.registry ∧
    (forceRerender s fresh).decorated = s.decorated ∧
    (forceRerender s fresh).update = fresh :=
  ⟨rfl, rfl, rfl, rfl⟩

/-- C8: on framework-driven detach (`componentWillUnmount`), a present
non-empty id has its Registry entry removed unconditionally (the new registry
is exactly the old one with the id deleted, so the lookup is absent); an
absent or empty id leaves the state unchanged. -/
theorem detach_removes_entry (s : SysState) (i : String) (hi : i ≠ "") :
    (componentWillUnmount s (some i)).registry = rdelete s.registry i ∧
    rget (componentWillUnmount s (some i)).registry i = none ∧
    componentWillUnmount s none = s ∧
    componentWillUnmount s (some "") = s := by
  refine ⟨?_, ?_, rfl, ?_⟩
  · simp [componentWillUnmount, hi]
  · simp [componentWillUnmount, hi, rget_rdelete_self]
  · simp [componentWillUnmount]

theorem detach_removes_entry_witness :
    (componentWillUnmount ⟨[("x", 1)], [1], true, 0⟩ (some "x")).registry
        = rdelete [("x", 1)] "x" ∧
    rget (componentWillUnmount ⟨[("x", 1)], [1], true, 0⟩ (some "x")).registry "x"
        = none ∧
    componentWillUnmount ⟨[("x", 1)], [1], true, 0⟩ none = ⟨[("x", 1)], [1], true, 0⟩ ∧
    componentWillUnmount ⟨[("x", 1)], [1], true, 0⟩ (some "")
        = ⟨[("x", 1)], [1], true, 0⟩ :=
  detach_removes_entry ⟨[("x", 1)], [1], true, 0⟩ "x" (by decide)

/-- C9: with the empty prefix, the closed-universe validation never fires on
any property read: no diagnostic is ever logged, the outcome is never the
validation `undefined`, and an out-of-universe (indeed any unregistered,
non-selector) name falls through to the static member. -/
theorem empty_pfx_no_validation (u : IdsOption) (reg : Registry) (prop : String) :
    (proxyGet ⟨u, ""⟩ reg prop).2 = 0 ∧
    (proxyGet ⟨u, ""⟩ reg prop).1 ≠ GetOutcome.undefinedValue ∧
    (prop ≠ "setIdType" → rget reg prop = none →
        proxyGet ⟨u, ""⟩ reg prop = (GetOutcome.staticMember, 0)) := by
  by_cases hsel : prop = "setIdType"
  · subst hsel
    exact ⟨by simp [proxyGet], by simp [proxyGet], fun h => absurd rfl h⟩
  · cases hr : rget reg prop with
    | none =>
        refine ⟨?_, ?_, fun _ _ => ?_⟩ <;> simp [proxyGet, hsel, hr]
    | some r =>
        refine ⟨?_, ?_, fun _ hr0 => ?_⟩
        · simp [proxyGet, hsel, hr]
        · simp [proxyGet, hsel, hr]
        · simp [hr] at hr0

theorem empty_pfx_no_validation_witness :
    proxyGet ⟨IdsOption.idsArray ["a", "b"], ""⟩ [] "zzz"
        = (GetOutcome.staticMember, 0) :=
  (empty_pfx_no_validation (IdsOption.idsArray ["a", "b"]) [] "zzz").2.2
    (by decide) (by decide)

/-- C10: after two instances attach with the same non-empty id `i` (node `nA`
then node `nB` — last mount wins, the entry is `nB`), the detach of the
earlier instance deletes the entry for `i` unconditionally: the lookup of `i`
becomes absent even though the later instance is still mounted. -/
theorem detach_ignores_owner
    (s : SysState) (nA nB : Nat) (i : String) (hi : i ≠ "") :
    rget ((registerRef ((registerRef s (some nA) (some i)).1)
        (some nB) (some i)).1).registry i = some nB ∧
    rget (componentWillUnmount
        ((registerRef ((registerRef s (some nA) (some i)).1)
          (some nB) (some i)).1) (some i)).registry i = none := by
  constructor
  · simp [registerRef, hi, rget_rset_self]
  · simp [registerRef, componentWillUnmount, hi, rget_rdelete_self]

theorem detach_ignores_owner_witness :
    rget ((registerRef ((registerRef ⟨[], [], true, 0⟩ (some 1) (some "x")).1)
        (some 2) (some "x")).1).registry "x" = some 2 ∧
    rget (componentWillUnmount
        ((registerRef ((registerRef ⟨[], [], true, 0⟩ (some 1) (some "x")).1)
          (some 2) (some "x")).1) (some "x")).registry "x" = none :=
  detach_ignores_owner ⟨[], [], true, 0⟩ 1 2 "x" (by decide)

end Idify
